import Mathlib

/-!
Shallow embedding of themes voter-system backend authorization core
(src/backend/utils/auth.py, src/backend/api/auth.py, src/backend/api/main.py)
together with theorems about its permission table, scope predicate, token
lifecycle, login flow, password change, and the voter endpoints.
-/

namespace VoterSystem

/-- Association-list lookup, modelling a Python dict keyed by strings
(`d[k]` / `d.get(k)` returns the value of the first matching key). -/
def lookup {β : Type} (l : List (String × β)) (k : String) : Option β :=
  (l.find? (fun p => p.1 == k)).map Prod.snd

/-- Python truthiness of an optional string: `None` and `""` are falsy. -/
def truthy : Option String → Bool
  | none => false
  | some s => !(s == "")

/-- Python `a or b` on optional strings: yields `a` when truthy, else `b`. -/
def orTruthy (a b : Option String) : Option String :=
  match a with
  | some s => if s == "" then b else some s
  | none => b

/-! ## Permission table (src/backend/utils/auth.py, PERMISSIONS) -/

def superAdminPerms : List (String × Bool) :=
  [("view_all_dun", true),
   ("export_all", true),
   ("update_voters", true),
   ("manage_users", true),
   ("generate_reports", true),
   ("view_audit_logs", true)]

def candidatePerms : List (String × Bool) :=
  [("view_all_dun", false),
   ("view_own_dun", true),
   ("export_own_dun", true),
   ("update_voters", true),
   ("manage_users", false),
   ("generate_reports", true),
   ("view_audit_logs", false)]

def candidateAssistantPerms : List (String × Bool) :=
  [("view_all_dun", false),
   ("view_own_dun", true),
   ("export_own_dun", false),
   ("update_voters", false),
   ("manage_users", false),
   ("generate_reports", true),
   ("view_audit_logs", false)]

def superUserPerms : List (String × Bool) :=
  [("view_all_dun", false),
   ("view_own_dun", true),
   ("export_own_dun", true),
   ("update_voters", false),
   ("manage_users", false),
   ("generate_reports", true),
   ("view_audit_logs", false)]

def pdmPerms : List (String × Bool) :=
  [("view_all_dun", false),
   ("view_own_dun", true),
   ("export_own_dun", true),
   ("update_voters", true),
   ("manage_users", false),
   ("generate_reports", true),
   ("view_audit_logs", false)]

def PERMISSIONS : List (String × List (String × Bool)) :=
  [("super_admin", superAdminPerms),
   ("candidate", candidatePerms),
   ("candidate_assistant", candidateAssistantPerms),
   ("super_user", superUserPerms),
   ("pdm", pdmPerms)]

/-- The eight capability names observed across the table. -/
def observedCapabilities : List String :=
  ["view_all_dun", "view_own_dun", "export_own_dun", "export_all",
   "update_voters", "manage_users", "generate_reports", "view_audit_logs"]

/-- src/backend/utils/auth.py, check_permission: unknown role denies,
otherwise the role entry is consulted with default False. -/
def check_permission (user_role permission : String) : Bool :=
  match lookup PERMISSIONS user_role with
  | none => false
  | some perms => (lookup perms permission).getD false

/-- src/backend/utils/auth.py, can_access_dun: super_admin sees every DUN,
everyone else only their own (an unset user DUN never equals a target). -/
def can_access_dun (user_role : String) (user_dun : Option String)
    (target_dun : String) : Bool :=
  if user_role == "super_admin" then true
  else user_dun == some target_dun

/-! ## Token codec (src/backend/utils/auth.py, create_access_token / verify_token) -/

def ACCESS_TOKEN_EXPIRE_HOURS : Nat := 8

/-- A signed token: the payload carries the caller's data together with the
expiry timestamp, and the signature is modelled by recording the signing key
identity (signature verification succeeds exactly for the same key). -/
structure Token (α : Type) where
  data : α
  exp : Nat
  key : Nat
deriving Repr, DecidableEq

/-- src/backend/utils/auth.py, create_access_token: the expiry is
`now + expires_delta` when a truthy delta is supplied (Python treats a zero
timedelta as falsy), else `now + 8 hours`, and it is embedded in the signed
payload. Times are seconds since the epoch. -/
def create_access_token {α : Type} (data : α) (now : Nat)
    (expires_delta : Option Nat) (key : Nat) : Token α :=
  let delta :=
    match expires_delta with
    | some d => if d = 0 then ACCESS_TOKEN_EXPIRE_HOURS * 3600 else d
    | none => ACCESS_TOKEN_EXPIRE_HOURS * 3600
  { data := data, exp := now + delta, key := key }

/-- src/backend/utils/auth.py, verify_token. Modelled from the spec for the
jose library internals it delegates to: `jwt.decode` checks the MAC signature
against the given key and rejects a token whose embedded `exp` lies in the
past (valid while `now ≤ exp`, zero leeway); any failure is mapped to `none`.
On success the decoded payload (data plus expiry) is returned. -/
def verify_token {α : Type} (tok : Token α) (now : Nat) (key : Nat) :
    Option (α × Nat) :=
  if tok.key == key && now ≤ tok.exp then some (tok.data, tok.exp) else none

/-! ## Password hasher (src/backend/utils/auth.py, hash_password / verify_password) -/

/-- Modelled from the spec: the Password Hasher (bcrypt via passlib) is an
external salted one-way hash; it is modelled as an injective tagging so that
verification succeeds exactly when the plaintext matches the hashed one. -/
def hash_password (password : String) : String :=
  "bcrypt$" ++ password

/-- Modelled from the spec: `verify(plaintext, digest)` holds iff the digest
is the hash of the plaintext. -/
def verify_password (plain_password hashed_password : String) : Bool :=
  hashed_password == hash_password plain_password

/-! ## Users, login and the per-request principal (src/backend/api/auth.py) -/

/-- A stored user row (`users` table). A missing `password_hash` key is
modelled by the empty string, matching `user.get("password_hash", "")`;
`role` is optional, matching `user.get("role", "candidate_assistant")`. -/
structure UserRec where
  id : Nat
  username : String
  password_hash : String
  role : Option String
  dun : Option String
  is_active : Bool
  must_change_password : Bool
  full_name : Option String
  email : Option String
deriving Repr, DecidableEq

/-- Outcome of a FastAPI handler: a value, or an HTTPException carrying a
status code and a detail string. -/
inductive ApiResult (α : Type) where
  | ok (val : α)
  | err (statusCode : Nat) (detail : String)
deriving Repr, DecidableEq

def isOk {α : Type} : ApiResult α → Bool
  | .ok _ => true
  | .err _ _ => false

/-- The JWT claim set built at login (`token_data` in src/backend/api/auth.py). -/
structure Claims where
  sub : String
  username : String
  role : String
  dun : Option String
  user_id : Nat
deriving Repr, DecidableEq

/-- The sanitized user info returned by login (password hash excluded). -/
structure UserInfo where
  id : Nat
  username : String
  role : String
  dun : Option String
  full_name : Option String
  email : Option String
deriving Repr, DecidableEq

structure LoginResponse where
  access_token : Token Claims
  token_type : String
  user : UserInfo
  must_change_password : Bool
deriving Repr, DecidableEq

/-- src/backend/api/auth.py, login: look the username up, reject a missing
user, a missing hash, or a failed password check with one identical 401
detail, reject an inactive account with 403, else issue the token. -/
def login (users : List UserRec) (username password : String)
    (now key : Nat) : ApiResult LoginResponse :=
  match users.find? (fun u => u.username == username) with
  | none => .err 401 "Invalid username or password"
  | some user =>
    if user.password_hash == "" then
      .err 401 "Invalid username or password"
    else if !(verify_password password user.password_hash) then
      .err 401 "Invalid username or password"
    else if !user.is_active then
      .err 403 "User account is inactive"
    else
      let token_data : Claims :=
        { sub := toString user.id
          username := user.username
          role := user.role.getD "candidate_assistant"
          dun := user.dun
          user_id := user.id }
      .ok { access_token := create_access_token token_data now none key
            token_type := "bearer"
            user := { id := user.id
                      username := user.username
                      role := user.role.getD "candidate_assistant"
                      dun := user.dun
                      full_name := user.full_name
                      email := user.email }
            must_change_password := user.must_change_password }

/-- The authenticated principal assembled by get_current_user. -/
structure CurrentUser where
  id : Nat
  username : Option String
  role : String
  dun : Option String
  user_id : Nat
deriving Repr, DecidableEq

/-- `payload.get("user_id") or payload.get("sub")`: Python falls back to the
`sub` string (parsed here) when `user_id` is falsy, i.e. zero. -/
def resolvedUserId (payload : Claims) : Nat :=
  if payload.user_id != 0 then payload.user_id else payload.sub.toNat?.getD 0

/-- src/backend/api/auth.py, get_current_user: verify the token, re-load the
account (rejecting a missing or inactive one), then build the principal from
the token claims — except that `dun` is `payload.get("dun") or
user.get("dun")`, so a falsy token claim falls back to the current stored
record. The `role` claim is always present in a login-issued token. -/
def get_current_user (users : List UserRec) (tok : Token Claims)
    (now key : Nat) : ApiResult CurrentUser :=
  match verify_token tok now key with
  | none => .err 401 "Invalid authentication credentials"
  | some (payload, _) =>
    match users.find? (fun u => u.id == resolvedUserId payload) with
    | none => .err 401 "User not found"
    | some user =>
      if !user.is_active then .err 403 "User account is inactive"
      else
        .ok { id := user.id
              username := some payload.username
              role := payload.role
              dun := orTruthy payload.dun user.dun
              user_id := user.id }

/-- One row of the append-only `audit_log` table. -/
structure AuditEntry where
  user_id : Nat
  action : String
  table_name : Option String
  record_id : Option Nat
  ip_address : Option String
deriving Repr, DecidableEq

/-- `current_user.get("user_id") or current_user.get("id")`: Python falls
back to `id` when `user_id` is falsy, i.e. zero. -/
def cuUserId (cu : CurrentUser) : Nat :=
  if cu.user_id != 0 then cu.user_id else cu.id

/-- src/backend/api/auth.py, change_password: verify the current password
(401), check the new password's length (400) and difference from the current
one (400), then store the new hash, clear must_change_password, and append
one `password_changed` audit entry. Returns the outcome, the updated users
table, and the audit writes performed. -/
def change_password (users : List UserRec) (cu : CurrentUser)
    (current_password new_password : String) :
    ApiResult String × List UserRec × List AuditEntry :=
  let user_id := cuUserId cu
  match users.find? (fun u => u.id == user_id) with
  | none => (.err 404 "User not found", users, [])
  | some user =>
    if !(verify_password current_password user.password_hash) then
      (.err 401 "Current password is incorrect", users, [])
    else if new_password.length < 8 then
      (.err 400 "New password must be at least 8 characters long", users, [])
    else if current_password == new_password then
      (.err 400 "New password must be different from current password", users, [])
    else
      let users2 := users.map (fun u =>
        if u.id == user_id then
          { u with password_hash := hash_password new_password
                   must_change_password := false }
        else u)
      (.ok "Password changed successfully", users2,
       [{ user_id := user_id, action := "password_changed",
          table_name := some "users", record_id := none, ip_address := none }])

/-! ## Voter endpoints (src/backend/api/main.py) -/

/-- One row of the `voters` table; nullable columns are options. -/
structure Voter where
  id : Nat
  bil : Nat
  nama_pemilih : String
  jantina : Option String
  daerah_mengundi : Option String
  lokaliti : Option String
  dun : Option String
  tag : Option String
  updated_at : Option String
deriving Repr, DecidableEq

/-- Whether `needle` occurs as a contiguous run inside `hay`. -/
def charsInfix (needle : List Char) : List Char → Bool
  | [] => needle.isEmpty
  | c :: cs => needle.isPrefixOf (c :: cs) || charsInfix needle cs

/-- Case-insensitive substring match, modelling `ilike('%name%')`. -/
def containsCI (haystack needle : String) : Bool :=
  charsInfix needle.toLower.data haystack.toLower.data

def insertByBil (v : Voter) : List Voter → List Voter
  | [] => [v]
  | w :: ws => if v.bil ≤ w.bil then v :: w :: ws else w :: insertByBil v ws

/-- Stable insertion sort on `bil`, modelling `.order('bil')`. -/
def sortByBil : List Voter → List Voter
  | [] => []
  | v :: vs => insertByBil v (sortByBil vs)

/-- src/backend/api/main.py, get_voters: a non-super_admin caller with no
truthy DUN is rejected with 403 before any query; otherwise the query is
scoped to the caller's DUN (super_admin excepted), the optional filters are
applied (the `dun` filter only for super_admin; the `tag` filter value
`untagged` matches rows whose tag is null), rows are ordered by `bil` and
paged with `range(offset, offset+limit-1)`, and one `view` audit entry is
written. Returns the outcome and the audit writes performed. -/
def get_voters (db : List Voter) (cu : CurrentUser) (ip : String)
    (name gender daerah lokaliti dun tag : Option String)
    (limit offset : Nat) : ApiResult (List Voter) × List AuditEntry :=
  if cu.role != "super_admin" && !(truthy cu.dun) then
    (.err 403 "User has no DUN assignment", [])
  else
    let q1 := if cu.role != "super_admin" then
        db.filter (fun v => v.dun == cu.dun) else db
    let q2 := if truthy name then
        q1.filter (fun v => containsCI v.nama_pemilih (name.getD "")) else q1
    let q3 := if truthy gender then
        q2.filter (fun v => v.jantina == gender) else q2
    let q4 := if truthy daerah then
        q3.filter (fun v => v.daerah_mengundi == daerah) else q3
    let q5 := if truthy lokaliti then
        q4.filter (fun v => v.lokaliti == lokaliti) else q4
    let q6 := if truthy dun && cu.role == "super_admin" then
        q5.filter (fun v => v.dun == dun) else q5
    let q7 := if truthy tag then
        (if tag == some "untagged" then q6.filter (fun v => v.tag == none)
         else q6.filter (fun v => v.tag == tag))
      else q6
    let rows := ((sortByBil q7).drop offset).take limit
    (.ok rows,
     [{ user_id := cu.id, action := "view", table_name := some "voters",
        record_id := none, ip_address := some ip }])

/-- src/backend/api/main.py, get_voter: fetch by id (404 when absent), then
for a non-super_admin caller compare the voter's DUN with the caller's
(`voter.get('dun') != current_user.get('dun')`, an Option-to-Option
comparison), rejecting a mismatch with 403; on success one `view` audit
entry is written. -/
def get_voter (db : List Voter) (cu : CurrentUser) (ip : String)
    (voter_id : Nat) : ApiResult Voter × List AuditEntry :=
  match db.find? (fun v => v.id == voter_id) with
  | none => (.err 404 "Voter not found", [])
  | some voter =>
    if cu.role != "super_admin" && !(voter.dun == cu.dun) then
      (.err 403 "Access denied to this voter's DUN", [])
    else
      (.ok voter,
       [{ user_id := cu.id, action := "view", table_name := some "voters",
          record_id := some voter_id, ip_address := some ip }])

/-- src/backend/api/main.py, update_voter: the `update_voters` capability is
checked first (403), then the voter is fetched (404 when absent), then the
DUN scope is checked for non-super_admin callers (403), and finally the tag
and `updated_at` are written; the handler writes no audit entry itself (a
database trigger does). Returns the outcome and the updated table. -/
def update_voter (db : List Voter) (cu : CurrentUser) (voter_id : Nat)
    (new_tag : Option String) (now_iso : String) :
    ApiResult Voter × List Voter :=
  if !(check_permission cu.role "update_voters") then
    (.err 403 "You don't have permission to update voters", db)
  else
    match db.find? (fun v => v.id == voter_id) with
    | none => (.err 404 "Voter not found", db)
    | some voter =>
      if cu.role != "super_admin" && !(voter.dun == cu.dun) then
        (.err 403 "Cannot update voter from different DUN", db)
      else
        let db2 := db.map (fun v =>
          if v.id == voter_id then
            { v with tag := new_tag, updated_at := some now_iso }
          else v)
        (.ok { voter with tag := new_tag, updated_at := some now_iso }, db2)

/-- The full GET /api/voters route: the get_current_user dependency runs
first, and an invalid token or missing/inactive account aborts the request
before the handler body (so before any audit write). -/
def get_votersRoute (users : List UserRec) (tok : Token Claims)
    (now key : Nat) (db : List Voter) (ip : String)
    (name gender daerah lokaliti dun tag : Option String)
    (limit offset : Nat) : ApiResult (List Voter) × List AuditEntry :=
  match get_current_user users tok now key with
  | .err code detail => (.err code detail, [])
  | .ok cu => get_voters db cu ip name gender daerah lokaliti dun tag limit offset

/-- The full GET /api/voters/\x7bvoter_id\x7d route, with the
get_current_user dependency run first. -/
def get_voterRoute (users : List UserRec) (tok : Token Claims)
    (now key : Nat) (db : List Voter) (ip : String) (voter_id : Nat) :
    ApiResult Voter × List AuditEntry :=
  match get_current_user users tok now key with
  | .err code detail => (.err code detail, [])
  | .ok cu => get_voter db cu ip voter_id

/-! ## Helper lemmas about association-list lookup -/

theorem lookup_eq_none_of_not_mem {β : Type} (l : List (String × β))
    (k : String) (h : ∀ b, (k, b) ∉ l) : lookup l k = none := by
  unfold lookup
  have hf : l.find? (fun p => p.1 == k) = none := by
    rw [List.find?_eq_none]
    intro x hx hbeq
    have hk : x.1 = k := by simpa using hbeq
    exact h x.2 (by simpa [← hk] using hx)
  rw [hf]
  rfl

theorem lookup_eq_some_of_mem {β : Type} (l : List (String × β))
    (k : String) (b : β) :
    (l.map Prod.fst).Nodup → (k, b) ∈ l → lookup l k = some b := by
  induction l with
  | nil => intro _ h; cases h
  | cons hd tl ih =>
    intro hnd h
    rw [List.mem_cons] at h
    rcases h with h | h
    · subst h
      unfold lookup
      simp [List.find?]
    · have hne : hd.1 ≠ k := by
        intro hk
        have hmem : k ∈ tl.map Prod.fst :=
          List.mem_map_of_mem Prod.fst h
        rw [List.map_cons, List.nodup_cons] at hnd
        exact hnd.1 (hk ▸ hmem)
      have htl : (tl.map Prod.fst).Nodup := by
        rw [List.map_cons, List.nodup_cons] at hnd
        exact hnd.2
      unfold lookup at *
      rw [List.find?_cons_of_neg]
      · exact ih htl h
      · simp [hne]

theorem verify_password_hash (p : String) :
    verify_password p (hash_password p) = true := by
  simp [verify_password]

theorem verify_password_empty (p : String) : verify_password p "" = false := by
  simp only [verify_password, hash_password]
  rw [beq_eq_false_iff_ne]
  intro h
  have hlen := congrArg String.length h
  rw [String.length_append] at hlen
  have hz : (0 : Nat) = 7 + p.length := by simpa using hlen
  omega

/-! ## Claim theorems -/

/-- C1: `can_access_dun` returns true whenever the role is super_admin,
regardless of the two DUNs; for every other role it returns true exactly
when the caller's DUN equals the target DUN. -/
theorem c1_can_access_dun_scope (role : String) (user_dun : Option String)
    (target_dun : String) :
    (role = "super_admin" → can_access_dun role user_dun target_dun = true) ∧
    (role ≠ "super_admin" →
      (can_access_dun role user_dun target_dun = true ↔
        user_dun = some target_dun)) := by
  constructor
  · intro h
    simp [can_access_dun, h]
  · intro h
    simp [can_access_dun, h]

theorem c1_can_access_dun_scope_witness :
    can_access_dun "super_admin" none "Kawang" = true ∧
    (can_access_dun "pdm" (some "Kawang") "Kawang" = true ↔
      (some "Kawang" : Option String) = some "Kawang") :=
  ⟨(c1_can_access_dun_scope "super_admin" none "Kawang").1 rfl,
   (c1_can_access_dun_scope "pdm" (some "Kawang") "Kawang").2 (by decide)⟩

/-- C4: `check_permission` equals the static PERMISSIONS lookup: a role with
no table entry denies every capability, a capability absent from the role's
entry is denied, and a capability present in the entry yields exactly the
stored boolean. -/
theorem c4_check_permission_table (r c : String) :
    ((∀ e, (r, e) ∉ PERMISSIONS) → check_permission r c = false) ∧
    (∀ e, (r, e) ∈ PERMISSIONS → (∀ b, (c, b) ∉ e) →
      check_permission r c = false) ∧
    (∀ e b, (r, e) ∈ PERMISSIONS → (c, b) ∈ e → check_permission r c = b) := by
  refine ⟨?_, ?_, ?_⟩
  · intro h
    unfold check_permission
    rw [lookup_eq_none_of_not_mem PERMISSIONS r h]
  · intro e he hc
    unfold check_permission
    rw [lookup_eq_some_of_mem PERMISSIONS r e (by decide) he]
    show (lookup e c).getD false = false
    rw [lookup_eq_none_of_not_mem e c hc]
    rfl
  · intro e b he hb
    have hnd : (e.map Prod.fst).Nodup := by
      have he2 := he
      simp only [PERMISSIONS, List.mem_cons, List.not_mem_nil, or_false,
        Prod.mk.injEq] at he2
      rcases he2 with ⟨_, h2⟩ | ⟨_, h2⟩ | ⟨_, h2⟩ | ⟨_, h2⟩ | ⟨_, h2⟩ <;>
        subst h2 <;> decide
    unfold check_permission
    rw [lookup_eq_some_of_mem PERMISSIONS r e (by decide) he]
    show (lookup e c).getD false = b
    rw [lookup_eq_some_of_mem e c b hnd hb]
    rfl

theorem c4_check_permission_table_witness :
    check_permission "ghost" "update_voters" = false ∧
    check_permission "candidate" "export_all" = false ∧
    check_permission "candidate" "update_voters" = true := by
  refine ⟨(c4_check_permission_table "ghost" "update_voters").1 ?_,
         (c4_check_permission_table "candidate" "export_all").2.1
           candidatePerms (by decide) ?_,
         (c4_check_permission_table "candidate" "update_voters").2.2
           candidatePerms true (by decide) (by decide)⟩
  · intro e he
    have hmem : "ghost" ∈ PERMISSIONS.map Prod.fst :=
      List.mem_map_of_mem Prod.fst he
    exact absurd hmem (by decide)
  · intro b hb
    have hmem : "export_all" ∈ candidatePerms.map Prod.fst :=
      List.mem_map_of_mem Prod.fst hb
    exact absurd hmem (by decide)

/-- C10 counterexample: the claim's final clause is false — candidate is a
recognized role other than super_admin whose entry also fails to define all
eight observed capabilities (export_all is absent from it). -/
theorem c10_only_super_admin_incomplete_counterexample :
    ("candidate", candidatePerms) ∈ PERMISSIONS ∧
    "candidate" ≠ "super_admin" ∧
    "export_all" ∈ observedCapabilities ∧
    lookup candidatePerms "export_all" = none := by decide

/-- C10 amended: the super_admin entry omits view_own_dun and
export_own_dun and check_permission denies both; but super_admin is not the
only role with an incomplete entry — every role's entry omits at least one
of the eight observed capabilities, each non-super_admin role omitting
export_all. -/
theorem c10_permission_table_gaps :
    check_permission "super_admin" "view_own_dun" = false ∧
    check_permission "super_admin" "export_own_dun" = false ∧
    lookup superAdminPerms "view_own_dun" = none ∧
    lookup superAdminPerms "export_own_dun" = none ∧
    PERMISSIONS.all (fun re =>
      observedCapabilities.any (fun c => lookup re.2 c == none)) = true ∧
    PERMISSIONS.all (fun re =>
      re.1 == "super_admin" || lookup re.2 "export_all" == none) = true := by
  decide

/-- C5: a token created with the default TTL embeds an expiry 8 hours
(28800 seconds) after issuance inside the signed payload; verification with
the issuing key returns the embedded claims at any time strictly before the
expiry, and returns none at any time strictly after it. -/
theorem c5_token_expiry {α : Type} (data : α) (now t key : Nat) :
    (create_access_token data now none key).exp = now + 8 * 3600 ∧
    (t < (create_access_token data now none key).exp →
      verify_token (create_access_token data now none key) t key =
        some (data, now + 8 * 3600)) ∧
    ((create_access_token data now none key).exp < t →
      verify_token (create_access_token data now none key) t key = none) := by
  refine ⟨rfl, ?_, ?_⟩
  · intro h
    simp only [create_access_token, ACCESS_TOKEN_EXPIRE_HOURS] at *
    simp [verify_token, Nat.le_of_lt h]
  · intro h
    simp only [create_access_token, ACCESS_TOKEN_EXPIRE_HOURS] at *
    simp [verify_token, Nat.not_le_of_lt h]

theorem c5_token_expiry_witness :
    (create_access_token (7 : Nat) 0 none 0).exp = 0 + 8 * 3600 ∧
    verify_token (create_access_token (7 : Nat) 0 none 0) 28799 0 =
      some (7, 0 + 8 * 3600) ∧
    verify_token (create_access_token (7 : Nat) 0 none 0) 28801 0 = none :=
  ⟨(c5_token_expiry 7 0 28799 0).1,
   (c5_token_expiry 7 0 28799 0).2.1 (by decide),
   (c5_token_expiry 7 0 28801 0).2.2 (by decide)⟩

/-- C7: login answers an unknown username and a wrong password for an
existing username with the same 401 detail string, revealing neither; an
inactive account presenting the correct password is answered with 403. -/
theorem c7_login_errors (users : List UserRec) (username password : String)
    (now key : Nat) :
    (users.find? (fun u => u.username == username) = none →
      login users username password now key =
        .err 401 "Invalid username or password") ∧
    (∀ u, users.find? (fun x => x.username == username) = some u →
      verify_password password u.password_hash = false →
      login users username password now key =
        .err 401 "Invalid username or password") ∧
    (∀ u, users.find? (fun x => x.username == username) = some u →
      verify_password password u.password_hash = true →
      u.is_active = false →
      login users username password now key =
        .err 403 "User account is inactive") := by
  refine ⟨?_, ?_, ?_⟩
  · intro h
    unfold login
    rw [h]
  · intro u hu hv
    unfold login
    rw [hu]
    by_cases hempty : u.password_hash = ""
    · simp [hempty]
    · simp [hempty, hv]
  · intro u hu hv hact
    unfold login
    rw [hu]
    have hempty : ¬ u.password_hash = "" := by
      intro h0
      rw [h0, verify_password_empty] at hv
      cases hv
    simp [hempty, hv, hact]

theorem c7_login_errors_witness :
    login [] "ghost" "pw" 0 0 = .err 401 "Invalid username or password" ∧
    login [{ id := 1, username := "alice",
             password_hash := hash_password "goodpw123", role := some "pdm",
             dun := some "Kawang", is_active := true,
             must_change_password := false, full_name := none,
             email := none }] "alice" "wrongpass" 0 0 =
      .err 401 "Invalid username or password" ∧
    login [{ id := 2, username := "bob",
             password_hash := hash_password "goodpass", role := some "pdm",
             dun := some "Kawang", is_active := false,
             must_change_password := false, full_name := none,
             email := none }] "bob" "goodpass" 0 0 =
      .err 403 "User account is inactive" :=
  ⟨(c7_login_errors [] "ghost" "pw" 0 0).1 rfl,
   (c7_login_errors _ "alice" "wrongpass" 0 0).2.1 _ rfl (by decide),
   (c7_login_errors _ "bob" "goodpass" 0 0).2.2 _ rfl (by decide) rfl⟩

theorem find?_map_pred {α : Type} (l : List α) (f : α → α) (p : α → Bool)
    (hf : ∀ x, p (f x) = p x) :
    (l.map f).find? p = (l.find? p).map f := by
  induction l with
  | nil => rfl
  | cons hd tl ih =>
    rw [List.map_cons]
    by_cases hp : p hd
    · rw [List.find?_cons_of_pos _ (by rw [hf]; exact hp),
          List.find?_cons_of_pos _ hp]
      rfl
    · rw [List.find?_cons_of_neg _ (by rw [hf]; exact hp),
          List.find?_cons_of_neg _ hp]
      exact ih

/-- C8: change_password answers a wrong current password with 401, a new
password shorter than 8 characters with 400, a new password equal to the
current one with 400; on success it maps the stored row to one carrying the
hash of the new password with must_change_password cleared, and appends
exactly one password_changed audit entry. -/
theorem c8_change_password_paths (users : List UserRec) (cu : CurrentUser)
    (cp np : String) (u : UserRec)
    (hu : users.find? (fun x => x.id == cuUserId cu) = some u) :
    (verify_password cp u.password_hash = false →
      change_password users cu cp np =
        (.err 401 "Current password is incorrect", users, [])) ∧
    (verify_password cp u.password_hash = true → np.length < 8 →
      change_password users cu cp np =
        (.err 400 "New password must be at least 8 characters long",
         users, [])) ∧
    (verify_password cp u.password_hash = true → ¬ np.length < 8 → cp = np →
      change_password users cu cp np =
        (.err 400 "New password must be different from current password",
         users, [])) ∧
    (verify_password cp u.password_hash = true → ¬ np.length < 8 → cp ≠ np →
      change_password users cu cp np =
        (.ok "Password changed successfully",
         users.map (fun x =>
           if x.id == cuUserId cu then
             { x with password_hash := hash_password np
                      must_change_password := false }
           else x),
         [{ user_id := cuUserId cu, action := "password_changed",
            table_name := some "users", record_id := none,
            ip_address := none }]) ∧
      (change_password users cu cp np).2.1.find?
          (fun x => x.id == cuUserId cu) =
        some { u with password_hash := hash_password np
                      must_change_password := false }) := by
  have hid : (u.id == cuUserId cu) = true := by
    have hp := List.find?_some hu
    simpa using hp
  refine ⟨?_, ?_, ?_, ?_⟩
  · intro hv
    simp only [change_password]
    rw [hu]
    simp [hv]
  · intro hv hlen
    simp only [change_password]
    rw [hu]
    simp [hv, hlen]
  · intro hv hlen heq
    subst heq
    simp only [change_password]
    rw [hu]
    simp [hv, hlen]
  · intro hv hlen hne
    have hresult : change_password users cu cp np =
        (.ok "Password changed successfully",
         users.map (fun x =>
           if x.id == cuUserId cu then
             { x with password_hash := hash_password np
                      must_change_password := false }
           else x),
         [{ user_id := cuUserId cu, action := "password_changed",
            table_name := some "users", record_id := none,
            ip_address := none }]) := by
      simp only [change_password]
      rw [hu]
      simp [hv, hlen, hne]
    refine ⟨hresult, ?_⟩
    rw [hresult]
    show (users.map _).find? _ = _
    rw [find?_map_pred users _ (fun x => x.id == cuUserId cu) ?hpres, hu]
    case hpres =>
      intro x
      by_cases hx : (x.id == cuUserId cu) = true <;> simp [hx]
    have hid2 : u.id = cuUserId cu := by simpa using hid
    simp [hid2]

def c8_user : UserRec :=
  { id := 3, username := "carol", password_hash := hash_password "oldpass12",
    role := some "pdm", dun := some "Kawang", is_active := true,
    must_change_password := true, full_name := none, email := none }

def c8_cu : CurrentUser :=
  { id := 3, username := some "carol", role := "pdm", dun := some "Kawang",
    user_id := 3 }

theorem c8_change_password_paths_witness :
    change_password [c8_user] c8_cu "oldpass12" "short" =
      (.err 400 "New password must be at least 8 characters long",
       [c8_user], []) ∧
    change_password [c8_user] c8_cu "oldpass12" "newpass123" =
      (.ok "Password changed successfully",
       [c8_user].map (fun x =>
         if x.id == cuUserId c8_cu then
           { x with password_hash := hash_password "newpass123"
                    must_change_password := false }
         else x),
       [{ user_id := cuUserId c8_cu, action := "password_changed",
          table_name := some "users", record_id := none,
          ip_address := none }]) :=
  ⟨(c8_change_password_paths [c8_user] c8_cu "oldpass12" "short" c8_user
      (by decide)).2.1 (by decide) (by decide),
   ((c8_change_password_paths [c8_user] c8_cu "oldpass12" "newpass123" c8_user
      (by decide)).2.2.2 (by decide) (by decide) (by decide)).1⟩

/-- C3: update_voter succeeds exactly when the caller holds the
update_voters capability, the voter exists, and the scope predicate holds
(super_admin, or the voter's DUN equals the caller's); a capability failure
yields 403 even when the voter is absent (the capability check runs first),
a missing voter yields 404, and a scope failure yields 403. -/
theorem c3_update_voter_authorization (db : List Voter) (cu : CurrentUser)
    (vid : Nat) (tag : Option String) (now : String) :
    (check_permission cu.role "update_voters" = false →
      (update_voter db cu vid tag now).1 =
        .err 403 "You don't have permission to update voters") ∧
    (check_permission cu.role "update_voters" = true →
      db.find? (fun x => x.id == vid) = none →
      (update_voter db cu vid tag now).1 = .err 404 "Voter not found") ∧
    (∀ v, check_permission cu.role "update_voters" = true →
      db.find? (fun x => x.id == vid) = some v →
      cu.role ≠ "super_admin" → v.dun ≠ cu.dun →
      (update_voter db cu vid tag now).1 =
        .err 403 "Cannot update voter from different DUN") ∧
    (∀ v, check_permission cu.role "update_voters" = true →
      db.find? (fun x => x.id == vid) = some v →
      (cu.role = "super_admin" ∨ v.dun = cu.dun) →
      (update_voter db cu vid tag now).1 =
        .ok { v with tag := tag, updated_at := some now }) ∧
    ((∃ v, (update_voter db cu vid tag now).1 = .ok v) ↔
      (check_permission cu.role "update_voters" = true ∧
       ∃ v, db.find? (fun x => x.id == vid) = some v ∧
         (cu.role = "super_admin" ∨ v.dun = cu.dun))) := by
  have h1 : check_permission cu.role "update_voters" = false →
      (update_voter db cu vid tag now).1 =
        .err 403 "You don't have permission to update voters" := by
    intro h
    simp [update_voter, h]
  have h2 : check_permission cu.role "update_voters" = true →
      db.find? (fun x => x.id == vid) = none →
      (update_voter db cu vid tag now).1 = .err 404 "Voter not found" := by
    intro hp hf
    simp only [update_voter, hp]
    rw [hf]
    simp
  have h3 : ∀ v, check_permission cu.role "update_voters" = true →
      db.find? (fun x => x.id == vid) = some v →
      cu.role ≠ "super_admin" → v.dun ≠ cu.dun →
      (update_voter db cu vid tag now).1 =
        .err 403 "Cannot update voter from different DUN" := by
    intro v hp hf hrole hdun
    simp only [update_voter, hp]
    rw [hf]
    simp [hrole, hdun]
  have h4 : ∀ v, check_permission cu.role "update_voters" = true →
      db.find? (fun x => x.id == vid) = some v →
      (cu.role = "super_admin" ∨ v.dun = cu.dun) →
      (update_voter db cu vid tag now).1 =
        .ok { v with tag := tag, updated_at := some now } := by
    intro v hp hf hsc
    simp only [update_voter, hp]
    rw [hf]
    rcases hsc with hs | hd
    · simp [hs]
    · simp [hd]
  refine ⟨h1, h2, h3, h4, ?_, ?_⟩
  · rintro ⟨v, hv⟩
    by_cases hp : check_permission cu.role "update_voters" = true
    · cases hfind : db.find? (fun x => x.id == vid) with
      | none =>
        rw [h2 hp hfind] at hv
        cases hv
      | some w =>
        by_cases hrole : cu.role = "super_admin"
        · exact ⟨hp, w, rfl, Or.inl hrole⟩
        · by_cases hdun : w.dun = cu.dun
          · exact ⟨hp, w, rfl, Or.inr hdun⟩
          · rw [h3 w hp hfind hrole hdun] at hv
            cases hv
    · have hfalse : check_permission cu.role "update_voters" = false := by
        simpa using hp
      rw [h1 hfalse] at hv
      cases hv
  · rintro ⟨hp, v, hf, hsc⟩
    exact ⟨_, h4 v hp hf hsc⟩

def c3_voter : Voter :=
  { id := 1, bil := 1, nama_pemilih := "Ali", jantina := none,
    daerah_mengundi := none, lokaliti := none, dun := some "Kawang",
    tag := none, updated_at := none }

def c3_pdm_in_scope : CurrentUser :=
  { id := 9, username := some "pdm1", role := "pdm", dun := some "Kawang",
    user_id := 9 }

def c3_assistant : CurrentUser :=
  { id := 9, username := some "ca1", role := "candidate_assistant",
    dun := some "Kawang", user_id := 9 }

def c3_pdm_cross : CurrentUser :=
  { id := 9, username := some "pdm2", role := "pdm", dun := some "Limbahau",
    user_id := 9 }

theorem c3_update_voter_authorization_witness :
    (update_voter [c3_voter] c3_pdm_in_scope 1 (some "Yes") "t1").1 =
      .ok { c3_voter with tag := some "Yes", updated_at := some "t1" } ∧
    (update_voter ([] : List Voter) c3_assistant 1 (some "Yes") "t1").1 =
      .err 403 "You don't have permission to update voters" ∧
    (update_voter [c3_voter] c3_pdm_cross 1 (some "Yes") "t1").1 =
      .err 403 "Cannot update voter from different DUN" :=
  ⟨(c3_update_voter_authorization [c3_voter] c3_pdm_in_scope 1 (some "Yes")
      "t1").2.2.2.1 c3_voter (by decide) (by decide) (Or.inr (by decide)),
   (c3_update_voter_authorization [] c3_assistant 1 (some "Yes") "t1").1
     (by decide),
   (c3_update_voter_authorization [c3_voter] c3_pdm_cross 1 (some "Yes")
      "t1").2.2.1 c3_voter (by decide) (by decide) (by decide) (by decide)⟩

def c2_voter : Voter :=
  { id := 1, bil := 1, nama_pemilih := "Ali", jantina := none,
    daerah_mengundi := none, lokaliti := none, dun := none, tag := none,
    updated_at := none }

def c2_cu : CurrentUser :=
  { id := 7, username := some "bob", role := "candidate", dun := none,
    user_id := 7 }

/-- C2: evaluation of the code at the failing input. A candidate principal
with no DUN assignment is indeed rejected by the list endpoint, but
get_voter grants access to a voter whose own DUN tag is also unset (the
Option-to-Option comparison `voter.get('dun') != current_user.get('dun')`
is false when both are None), even writing the view audit entry, and
update_voter likewise updates such a voter — contradicting the claim that
every single-resource operation denies for a principal with no DUN. -/
theorem c2_no_dun_principal_reaches_undun_voter :
    get_voters [c2_voter] c2_cu "127.0.0.1" none none none none none none
        100 0 = (.err 403 "User has no DUN assignment", []) ∧
    get_voter [c2_voter] c2_cu "127.0.0.1" 1 =
      (.ok c2_voter,
       [{ user_id := 7, action := "view", table_name := some "voters",
          record_id := some 1, ip_address := some "127.0.0.1" }]) ∧
    (update_voter [c2_voter] c2_cu 1 (some "Yes") "t2").1 =
      .ok { c2_voter with tag := some "Yes", updated_at := some "t2" } := by
  refine ⟨?_, ?_, ?_⟩ <;> decide

theorem voters_audit_handler (db : List Voter) (cu : CurrentUser)
    (ip : String) (name gender daerah lokaliti dun tag : Option String)
    (limit offset : Nat) :
    (isOk (get_voters db cu ip name gender daerah lokaliti dun tag
        limit offset).1 = false →
      (get_voters db cu ip name gender daerah lokaliti dun tag
        limit offset).2 = []) ∧
    ((get_voters db cu ip name gender daerah lokaliti dun tag
        limit offset).2 ≠ [] →
      isOk (get_voters db cu ip name gender daerah lokaliti dun tag
        limit offset).1 = true) := by
  by_cases h : (cu.role != "super_admin" && !(truthy cu.dun)) = true
  · simp [get_voters, h, isOk]
  · simp [get_voters, h, isOk]

theorem voter_audit_handler (db : List Voter) (cu : CurrentUser)
    (ip : String) (vid : Nat) :
    (isOk (get_voter db cu ip vid).1 = false →
      (get_voter db cu ip vid).2 = []) ∧
    ((get_voter db cu ip vid).2 ≠ [] →
      isOk (get_voter db cu ip vid).1 = true) := by
  unfold get_voter
  cases hfind : db.find? (fun v => v.id == vid) with
  | none => simp [isOk]
  | some voter =>
    by_cases h : (cu.role != "super_admin" && !(voter.dun == cu.dun)) = true
    · simp [h, isOk]
    · simp [h, isOk]

/-- C9: on both voter read routes, every denial — invalid token, missing or
inactive account, missing DUN assignment, cross-DUN scope failure, or voter
not found — leaves the audit log untouched, and an audit entry appears only
when the request terminates in the allowed result. -/
theorem c9_audit_only_on_allowed (users : List UserRec) (tok : Token Claims)
    (now key : Nat) (db : List Voter) (ip : String)
    (name gender daerah lokaliti dun tag : Option String)
    (limit offset vid : Nat) :
    (isOk (get_votersRoute users tok now key db ip name gender daerah
        lokaliti dun tag limit offset).1 = false →
      (get_votersRoute users tok now key db ip name gender daerah lokaliti
        dun tag limit offset).2 = []) ∧
    ((get_votersRoute users tok now key db ip name gender daerah lokaliti
        dun tag limit offset).2 ≠ [] →
      isOk (get_votersRoute users tok now key db ip name gender daerah
        lokaliti dun tag limit offset).1 = true) ∧
    (isOk (get_voterRoute users tok now key db ip vid).1 = false →
      (get_voterRoute users tok now key db ip vid).2 = []) ∧
    ((get_voterRoute users tok now key db ip vid).2 ≠ [] →
      isOk (get_voterRoute users tok now key db ip vid).1 = true) := by
  cases hcu : get_current_user users tok now key with
  | err code detail =>
    simp [get_votersRoute, get_voterRoute, hcu, isOk]
  | ok cu =>
    have hvs := voters_audit_handler db cu ip name gender daerah lokaliti
      dun tag limit offset
    have hv := voter_audit_handler db cu ip vid
    simp only [get_votersRoute, get_voterRoute, hcu]
    exact ⟨hvs.1, hvs.2, hv.1, hv.2⟩

def c9_claims : Claims :=
  { sub := "1", username := "a", role := "candidate", dun := none,
    user_id := 1 }

def c9_expired_tok : Token Claims :=
  { data := c9_claims, exp := 0, key := 0 }

theorem c9_audit_only_on_allowed_witness :
    (get_voterRoute [] c9_expired_tok 5 0 [] "ip" 1).2 = [] :=
  (c9_audit_only_on_allowed [] c9_expired_tok 5 0 [] "ip" none none none
    none none none 100 0 1).2.2.1 (by decide)

def c6_user0 : UserRec :=
  { id := 1, username := "alice", password_hash := hash_password "password1",
    role := some "candidate", dun := none, is_active := true,
    must_change_password := false, full_name := none, email := none }

def c6_user1 : UserRec :=
  { c6_user0 with dun := some "Kawang" }

def c6_claims : Claims :=
  { sub := "1", username := "alice", role := "candidate", dun := none,
    user_id := 1 }

def c6_tok : Token Claims :=
  { data := c6_claims, exp := 28800, key := 0 }

/-- C6 counterexample: a candidate logs in while the stored record has no
dun, receiving a token whose dun claim is none; after the stored record's
dun is changed to Kawang, get_current_user for the very same token yields a
principal whose dun is Kawang — the session's dun changed with the stored
record, refuting the claim that get_current_user derives the dun from the
token so that later record changes cannot alter it. -/
theorem c6_session_dun_changes_counterexample :
    login [c6_user0] "alice" "password1" 0 0 =
      .ok { access_token := c6_tok, token_type := "bearer",
            user := { id := 1, username := "alice", role := "candidate",
                      dun := none, full_name := none, email := none },
            must_change_password := false } ∧
    c6_tok.data.dun = none ∧
    get_current_user [c6_user0] c6_tok 100 0 =
      .ok { id := 1, username := some "alice", role := "candidate",
            dun := none, user_id := 1 } ∧
    get_current_user [c6_user1] c6_tok 100 0 =
      .ok { id := 1, username := some "alice", role := "candidate",
            dun := some "Kawang", user_id := 1 } := by
  refine ⟨?_, rfl, ?_, ?_⟩ <;> decide

/-- C6 amended: the principal's dun equals the token's dun claim only when
that claim is truthy (set and non-empty); when the token's dun claim is
unset or empty, get_current_user falls back to the stored user record's
current dun, so only sessions whose token carries a truthy dun are
unaffected by later changes to the stored record. -/
theorem c6_get_current_user_dun_source (users : List UserRec)
    (tok : Token Claims) (now key : Nat) (u : UserRec) (cu : CurrentUser)
    (hu : users.find? (fun x => x.id == resolvedUserId tok.data) = some u)
    (hcu : get_current_user users tok now key = .ok cu) :
    cu.dun = orTruthy tok.data.dun u.dun ∧
    (∀ d, tok.data.dun = some d → d ≠ "" → cu.dun = some d) := by
  unfold get_current_user verify_token at hcu
  by_cases hv : (tok.key == key && decide (now ≤ tok.exp)) = true
  · rw [if_pos hv] at hcu
    have hcu2 : (match users.find? (fun x => x.id == resolvedUserId tok.data)
        with
      | none => (.err 401 "User not found" : ApiResult CurrentUser)
      | some user =>
        if !user.is_active then .err 403 "User account is inactive"
        else
          .ok { id := user.id
                username := some tok.data.username
                role := tok.data.role
                dun := orTruthy tok.data.dun user.dun
                user_id := user.id }) = .ok cu := hcu
    rw [hu] at hcu2
    by_cases ha : u.is_active
    · simp only [ha, Bool.not_true, Bool.false_eq_true, if_false] at hcu2
      have hdun : cu.dun = orTruthy tok.data.dun u.dun := by
        cases hcu2
        rfl
      refine ⟨hdun, ?_⟩
      intro d hd hne
      rw [hdun, hd]
      simp [orTruthy, hne]
    · simp only [ha] at hcu2
      cases hcu2
  · rw [if_neg (by simpa using hv)] at hcu
    cases hcu

def c6_claimsX : Claims :=
  { sub := "1", username := "alice", role := "candidate", dun := some "X",
    user_id := 1 }

def c6_tokX : Token Claims :=
  { data := c6_claimsX, exp := 28800, key := 0 }

def c6_cuX : CurrentUser :=
  { id := 1, username := some "alice", role := "candidate", dun := some "X",
    user_id := 1 }

theorem c6_get_current_user_dun_source_witness :
    c6_cuX.dun = orTruthy c6_tokX.data.dun c6_user1.dun :=
  (c6_get_current_user_dun_source [c6_user1] c6_tokX 100 0 c6_user1 c6_cuX
    (by decide) (by decide)).1

end VoterSystem
